import Mathlib

/-!
Shallow embedding of the conductor Build & Device-Fleet Test Orchestration
Engine (foundriesio/conductor), covering the webhook ingest handler
(`conductor/api/views.py`), the tagging / restart / submission tasks
(`conductor/core/tasks.py`) and the device model (`conductor/core/models.py`).
Machine-level details (HTTP, ORM) are represented by explicit state passing
and oracle functions for remote responses.
-/

namespace Conductor

/-- Python `needle in haystack`-style prefix comparison on character lists. -/
def charsPrefixEq : List Char → List Char → Bool
  | [], _ => true
  | _ :: _, [] => false
  | a :: as, b :: bs => a == b && charsPrefixEq as bs

/-- `charsContains hay needle` is true when `needle` occurs as a contiguous
subsequence of `hay`; mirrors Python's `needle in hay` for strings. -/
def charsContains : List Char → List Char → Bool
  | [], needle => needle.isEmpty
  | c :: t, needle => charsPrefixEq needle (c :: t) || charsContains t needle

/-- Python `needle in hay` on strings (substring containment). -/
def pyIn (needle hay : String) : Bool :=
  charsContains hay.data needle.data

/-- Split a character list on a separator character; like Python's
`str.split(sep)` for a one-character separator (the empty string yields one
empty field). -/
def splitChars (sep : Char) : List Char → List (List Char)
  | [] => [[]]
  | c :: t =>
    let rest := splitChars sep t
    if c = sep then [] :: rest
    else
      match rest with
      | [] => [[c]]
      | h :: r => (c :: h) :: r

/-- Python `s.split(sep)` for a one-character separator. -/
def pySplit (s : String) (sep : Char) : List String :=
  (splitChars sep s.data).map String.mk

/-- Python `s.split("-")[1]`: `none` models the `IndexError` raised when the
separator does not occur. -/
def splitDashSecond (s : String) : Option String :=
  (pySplit s '-')[1]?

/-- Rejoin fields with dashes (for re-assembling a maxsplit remainder). -/
def joinWithDash : List String → String
  | [] => ""
  | [x] => x
  | x :: xs => x ++ "-" ++ joinWithDash xs

/-- Python `s.split("-", 1)[1]`: everything after the first dash, `none` when
there is no dash (maxsplit=1 keeps later dashes in the remainder). -/
def afterFirstDash (s : String) : Option String :=
  match pySplit s '-' with
  | [] => none
  | [_] => none
  | _ :: rest => some (joinWithDash rest)

/-! ### Artifact index tag mutation (`_change_tag`, core/tasks.py:169-228) -/

/-- One entry of `meta["signed"]["targets"]`: the parsed
`custom.version` integer and the `custom.tags` list. -/
structure TargetEntry where
  version : Nat
  tags : List String
  deriving Repr, DecidableEq

/-- The per-target body of `_change_tag`'s tag loop (tasks.py:190-202): for
a target whose `custom.version` equals the build id, either unconditionally
append the tag, or remove its first occurrence when present
(Python `list.remove`); other targets are untouched. -/
def applyTagChange (build_id : Nat) (new_tag : String) (add : Bool)
    (target : TargetEntry) : TargetEntry :=
  if target.version = build_id then
    if add then
      { target with tags := target.tags ++ [new_tag] }
    else
      if new_tag ∈ target.tags then
        { target with tags := target.tags.erase new_tag }
      else
        target
  else
    target

/-- The tag add/remove loop of `_change_tag` over all targets of
`meta["signed"]["targets"]`. -/
def changeTagTargets (targets : List TargetEntry) (build_id : Nat)
    (new_tag : String) (add : Bool) : List TargetEntry :=
  targets.map (applyTagChange build_id new_tag add)

/-- Result of `load_pem_private_key` on the project's key, abstracted to the
isinstance checks `_change_tag` performs (`Ed25519PrivateKey`,
`RSAPrivateKey`, anything else). -/
inductive PemKey
  | ed25519
  | rsa
  | otherKey
  deriving Repr, DecidableEq

/-- The project fields `_change_tag` reads: `privkey` (PEM text, abstracted to
the parsed key kind; `none` models an empty/missing field), `keyid`. -/
structure SigProject where
  privkey : Option PemKey
  keyid : Option String
  deriving Repr, DecidableEq

/-- The signed targets document: `signed.version`, the target entries, and the
single `signatures[0]` record `{keyid, method, sig}`. -/
structure TargetsDoc where
  version : Nat
  targets : List TargetEntry
  sigKeyid : Option String
  sigMethod : Option String
  sig : Option String
  deriving Repr, DecidableEq

/-- Outcome of `_change_tag`: the signature produced (method recorded in
`signatures[0].method`; `none` when no signing occurred) and the document
PUT to the backend (`none` when no publish was attempted). -/
structure ChangeTagResult where
  signature : Option String
  published : Option TargetsDoc
  deriving Repr, DecidableEq

/-- `_change_tag` (tasks.py:169-228). `fetched` is the response of
`_get_factory_targets` (`none` for a missing/empty targets JSON);
`debug_fio_submit` is `settings.DEBUG_FIO_SUBMIT`, which suppresses the PUT.
Steps: bail out with no action when `privkey` or `keyid` is falsy; bail out
when the fetched targets are empty; mutate the tag lists; bump
`signed.version`; set the signature key id; sign with Ed25519 or RSA-PSS, and
when the key is neither (`sig is None`) log and return without publishing;
otherwise record the signature and PUT unless in debug mode. -/
def _change_tag (project : SigProject) (build_id : Nat) (new_tag : String)
    (add : Bool) (fetched : Option TargetsDoc) (debug_fio_submit : Bool) :
    ChangeTagResult :=
  match project.privkey with
  | none => { signature := none, published := none }
  | some key =>
    match project.keyid with
    | none => { signature := none, published := none }
    | some keyid =>
      match fetched with
      | none => { signature := none, published := none }
      | some meta =>
        let meta := { meta with
          targets := changeTagTargets meta.targets build_id new_tag add,
          version := meta.version + 1,
          sigKeyid := some keyid }
        let sigMethod : Option String :=
          match key with
          | PemKey.ed25519 => some "ed25519"
          | PemKey.rsa => some "rsassa-pss-sha256"
          | PemKey.otherKey => none
        match sigMethod with
        | none => { signature := none, published := none }
        | some m =>
          let signedMeta := { meta with sigMethod := some m, sig := some m }
          { signature := some m,
            published := if debug_fio_submit then none else some signedMeta }

/-! ### Build classification (`Build.build_type`, core/models.py:433-443) -/

/-- `Build.BUILD_TYPE_*` choices. -/
inductive BuildType
  | REGULAR
  | OTA
  | STATIC_DELTA
  | CONTAINERS
  deriving Repr, DecidableEq

/-- Every value of `BuildType` is one of the four declared choices. -/
theorem buildType_mem_all (bt : BuildType) :
    bt ∈ [BuildType.REGULAR, BuildType.OTA, BuildType.STATIC_DELTA,
          BuildType.CONTAINERS] := by
  cases bt <;> simp

/-! ### Tag window maintenance (`tag_build_runs`, core/tasks.py:286-327) -/

/-- `settings.FIO_UPGRADE_ROLLBACK_MESSAGE`. -/
def FIO_UPGRADE_ROLLBACK_MESSAGE : String := "upgrade/rollback testing"

/-- The Build fields read by `tag_build_runs` and
`_retrieve_previous_build`; `tagged` records membership in the project's
testing `BuildTag` (the `buildtag_set` many-to-many relation). -/
structure TagBuild where
  pk : Nat
  build_id : Nat
  tag : Option String
  build_type : BuildType
  build_reason : Option String
  skip_qa : Bool
  tagged : Bool
  deriving Repr, DecidableEq

/-- The Project fields read by `tag_build_runs`, plus its `build_set`. -/
structure TagProject where
  apply_testing_tag_on_callback : Bool
  testing_tag : Option String
  apply_tag_to_first_build_only : Bool
  builds : List TagBuild
  deriving Repr, DecidableEq

/-- `order_by('-build_id')` followed by `[0]`: the first element of maximal
`build_id` (stable descending sort keeps the earlier row first on ties). -/
def maxByBuildId : List TagBuild → Option TagBuild
  | [] => none
  | b :: t =>
    match maxByBuildId t with
    | none => some b
    | some m => if b.build_id < m.build_id then some m else some b

/-- `_retrieve_previous_build` (tasks.py:246-260): the most recent build of
the same project with a strictly lower `build_id`, the same branch `tag`, and
a type in `build_types`. -/
def _retrieve_previous_build (builds : List TagBuild) (build : TagBuild)
    (build_types : List BuildType) : Option TagBuild :=
  maxByBuildId (builds.filter fun b =>
    decide (b.build_id < build.build_id) && (b.tag == build.tag) &&
      build_types.contains b.build_type)

/-- The early-return guards of `tag_build_runs` (tasks.py:294-311): skip-qa
builds, projects with tagging disabled or without a testing tag, and OTA
(rollback-message) builds in first-build-only projects are left untouched. -/
def tagBuildRunsGuardsPass (p : TagProject) (build : TagBuild) : Bool :=
  !build.skip_qa && p.apply_testing_tag_on_callback && p.testing_tag.isSome &&
    !(match build.build_reason with
      | some r => pyIn FIO_UPGRADE_ROLLBACK_MESSAGE r &&
          p.apply_tag_to_first_build_only
      | none => false)

/-- The untag phase (tasks.py:315-323): with the adjacent predecessor
computed over all four build types, every build still tagged whose
`build_id` is below the predecessor's is untagged; without a predecessor
nothing is untagged. -/
def tagBuildRunsUntagPhase (p : TagProject) (build : TagBuild) : TagProject :=
  match _retrieve_previous_build p.builds build
      [BuildType.REGULAR, BuildType.OTA, BuildType.STATIC_DELTA,
       BuildType.CONTAINERS] with
  | none => p
  | some previous_build =>
    { p with builds := p.builds.map fun b =>
        if b.tagged && decide (b.build_id < previous_build.build_id) then
          { b with tagged := false }
        else b }

/-- The tag phase (tasks.py:326): `_add_tag` puts the current build into the
testing tag's build set. -/
def tagBuildRunsTagPhase (p : TagProject) (build : TagBuild) : TagProject :=
  { p with builds := p.builds.map fun b =>
      if b.pk == build.pk then { b with tagged := true } else b }

/-- `tag_build_runs` (tasks.py:286-327) as a whole: look the build up by
primary key, run the guards, untag the stale builds, then tag the current
build. -/
def tag_build_runs (p : TagProject) (build_pk : Nat) : TagProject :=
  match p.builds.find? (fun b => b.pk == build_pk) with
  | none => p
  | some build =>
    if tagBuildRunsGuardsPass p build then
      tagBuildRunsTagPhase (tagBuildRunsUntagPhase p build) build
    else p

/-- The intermediate observable state of `tag_build_runs`: after the untag
loop, before `_add_tag` runs. -/
def tag_build_runs_mid (p : TagProject) (build_pk : Nat) : TagProject :=
  match p.builds.find? (fun b => b.pk == build_pk) with
  | none => p
  | some build =>
    if tagBuildRunsGuardsPass p build then tagBuildRunsUntagPhase p build
    else p

/-- Number of builds of the project currently carrying the testing tag. -/
def taggedCount (p : TagProject) : Nat :=
  (p.builds.filter fun b => b.tagged).length

/-! ### Webhook ingest (`process_jobserv_webhook`, api/views.py:149-247) -/

/-- One element of the event's `runs` list. -/
structure RunInfo where
  name : String
  url : String
  status : String
  deriving Repr, DecidableEq

/-- The decoded jobserv callback body. `build_id = 0` models a falsy/missing
`build_id` and `url = ""` a falsy/missing `url` (both rejected with 400). -/
structure JobservEvent where
  build_id : Nat
  url : String
  trigger_name : String
  status : String
  reason : Option String
  runs : List RunInfo
  deriving Repr, DecidableEq

/-- The Project fields the handler reads. -/
structure ProjectCfg where
  name : String
  default_branch : String
  deriving Repr, DecidableEq

/-- A `LAVADeviceType` row as used for the containers run-name fan-out. -/
structure DeviceTypeCfg where
  name : String
  project : String
  architecture : String
  deriving Repr, DecidableEq

/-- Database tables the handler consults. -/
structure IngestEnv where
  projects : List ProjectCfg
  deviceTypes : List DeviceTypeCfg
  deriving Repr, DecidableEq

/-- The Build columns touched by the handler. -/
structure DbBuild where
  pk : Nat
  url : String
  project : String
  build_id : Nat
  tag : Option String
  build_status : String
  build_type : BuildType
  reason : Option String
  deriving Repr, DecidableEq

/-- The Build table, with a fresh-primary-key counter. -/
structure Db where
  nextPk : Nat
  builds : List DbBuild
  deriving Repr, DecidableEq

/-- The HTTP responses the handler can produce (`serverError` models an
uncaught exception such as the `IndexError` from `trigger_name.split`). -/
inductive HttpResponse
  | ok
  | created
  | badRequest
  | notFoundResp
  | serverError
  deriving Repr, DecidableEq

/-- Celery work scheduled by the handler. `testWorkflow` is the chain
`update_build_commit_id.si | tag_build_runs.si | group(create_build_run.si)`
built at views.py:243. -/
inductive Sched
  | restartFailedRuns (build_pk : Nat)
  | scheduleStaticDelta (build_pk : Nat)
  | testWorkflow (build_pk : Nat) (run_url : String) (dev_names : List String)
  deriving Repr, DecidableEq

/-- The `get_or_create` lookup key of views.py:186-190:
`(url, project, build_id, tag)`. -/
def buildKeyMatch (url project : String) (build_id : Nat)
    (tag : Option String) (b : DbBuild) : Bool :=
  b.url == url && b.project == project && b.build_id == build_id &&
    b.tag == tag

/-- `Build.objects.get_or_create` keyed on `(url, project, build_id, tag)`
with `defaults={"build_status": ..., "build_type": ...}` (views.py:186-192). -/
def getOrCreateBuild (db : Db) (url project : String) (build_id : Nat)
    (tag : Option String) (default_status : String)
    (default_type : BuildType) : Db × DbBuild :=
  match db.builds.find? (buildKeyMatch url project build_id tag) with
  | some b => (db, b)
  | none =>
    let b : DbBuild :=
      { pk := db.nextPk, url := url, project := project, build_id := build_id,
        tag := tag, build_status := default_status, build_type := default_type,
        reason := none }
    ({ nextPk := db.nextPk + 1, builds := db.builds ++ [b] }, b)

/-- The row update of `build.build_status = build_status; build.save()`
applied to one table row. -/
def statusUpd (pk : Nat) (status : String) (b : DbBuild) : DbBuild :=
  if b.pk == pk then { b with build_status := status } else b

/-- The row update of `build.reason = ...; build.save()` applied to one
table row. -/
def reasonUpd (pk : Nat) (reason : Option String) (b : DbBuild) : DbBuild :=
  if b.pk == pk then { b with reason := reason } else b

/-- `build.build_status = build_status; build.save()` (views.py:198-199). -/
def setBuildStatus (db : Db) (pk : Nat) (status : String) : Db :=
  { db with builds := db.builds.map (statusUpd pk status) }

/-- `build.reason = request_body_json.get("reason"); build.save()`
(views.py:206-207). -/
def setBuildReason (db : Db) (pk : Nat) (reason : Option String) : Db :=
  { db with builds := db.builds.map (reasonUpd pk reason) }

/-- The classification of views.py:174-185 as a function of the trigger
label: `None` when none of the three substrings occurs (no build created),
otherwise the sequential overwrites starting from `BUILD_TYPE_REGULAR`. -/
def classifyTrigger (trigger_name : String) : Option BuildType :=
  if pyIn "containers" trigger_name || pyIn "platform" trigger_name ||
      pyIn "generate-static-deltas" trigger_name then
    let t := BuildType.REGULAR
    let t := if pyIn "generate-static-deltas" trigger_name then
        BuildType.STATIC_DELTA else t
    let t := if pyIn "containers" trigger_name then BuildType.CONTAINERS else t
    some t
  else
    none

/-- `build_branch` computation (views.py:178-181): for non static-delta
triggers the branch is `trigger_name.split("-")[1]`, and a trigger without a
dash raises an uncaught `IndexError` (modelled as `Except.error`). -/
def computeBuildBranch (trigger_name : String) : Except Unit (Option String) :=
  if !(pyIn "generate-static-deltas" trigger_name) then
    match splitDashSecond trigger_name with
    | none => Except.error ()
    | some b => Except.ok (some b)
  else
    Except.ok none

/-- The runs loop of views.py:218-237: `run_url` tracks the last run's url
(assigned before any `continue`), and `dev_names` collects the device-type
names — for containers builds, the device types whose architecture matches
the run-name suffix after the first dash; otherwise the run name itself. -/
def devNamesAndRunUrl (env : IngestEnv) (project_name : String)
    (build_type : BuildType) (runs : List RunInfo) :
    Option String × List String :=
  runs.foldl
    (fun (acc : Option String × List String) run =>
      if build_type == BuildType.CONTAINERS then
        match afterFirstDash run.name with
        | some arch_name =>
          (some run.url, acc.2 ++ ((env.deviceTypes.filter fun dt =>
            dt.project == project_name && dt.architecture == arch_name).map
              (fun dt => dt.name)))
        | none => (some run.url, acc.2)
      else
        (some run.url, acc.2 ++ [run.name]))
    (none, [])

/-- Result of one handler invocation. -/
structure IngestResult where
  db : Db
  response : HttpResponse
  scheduled : List Sched
  deriving Repr, DecidableEq

/-- `process_jobserv_webhook` (views.py:149-247), from the point the decoded
body is available (header authentication and the `APICallback` audit row are
the excluded ingress layer): validate `build_id`/`url`, extract the project
name from the url path, 404 on unknown projects, classify and get-or-create
the build, persist the latest status, divert failures to the restart task,
static deltas to the delta coordinator, and fan platform/containers builds
out into the commit-id/tag/create-run chain. -/
def process_jobserv_webhook (env : IngestEnv) (db : Db) (ev : JobservEvent) :
    IngestResult :=
  if ev.build_id == 0 then
    { db := db, response := HttpResponse.badRequest, scheduled := [] }
  else if ev.url == "" then
    { db := db, response := HttpResponse.badRequest, scheduled := [] }
  else
    match (pySplit ev.url '/')[4]? with
    | none =>
      { db := db, response := HttpResponse.badRequest, scheduled := [] }
    | some project_name =>
      match env.projects.find? (fun p => p.name == project_name) with
      | none =>
        { db := db, response := HttpResponse.notFoundResp, scheduled := [] }
      | some project =>
        match classifyTrigger ev.trigger_name with
        | none =>
          -- in case build is not created, exit gracefully
          { db := db, response := HttpResponse.ok, scheduled := [] }
        | some build_type =>
          match computeBuildBranch ev.trigger_name with
          | Except.error _ =>
            { db := db, response := HttpResponse.serverError, scheduled := [] }
          | Except.ok build_branch =>
            let created := getOrCreateBuild db ev.url project_name ev.build_id
              build_branch ev.status build_type
            let db := created.1
            let build := created.2
            let db := setBuildStatus db build.pk ev.status
            if ev.status != "PASSED" then
              { db := db, response := HttpResponse.ok,
                scheduled := [Sched.restartFailedRuns build.pk] }
            else if pyIn "generate-static-deltas" ev.trigger_name then
              let db := setBuildReason db build.pk ev.reason
              { db := db, response := HttpResponse.created,
                scheduled := [Sched.scheduleStaticDelta build.pk] }
            else if (pyIn "platform" ev.trigger_name &&
                  pyIn project.default_branch ev.trigger_name) ||
                pyIn "containers" ev.trigger_name then
              match devNamesAndRunUrl env project_name build.build_type
                  ev.runs with
              | (some run_url, dev_names) =>
                { db := db, response := HttpResponse.created,
                  scheduled := [Sched.testWorkflow build.pk run_url dev_names] }
              | (none, _) =>
                { db := db, response := HttpResponse.created, scheduled := [] }
            else
              { db := db, response := HttpResponse.ok, scheduled := [] }

/-! ### Commit-id resolution vs job fan-out (core/tasks.py:331-342,719-757) -/

/-- The Build columns relevant to commit resolution and render context. -/
structure CommitState where
  commit_id : Option String
  build_reason : Option String
  deriving Repr, DecidableEq

/-- External responses consumed by `update_build_commit_id`:
`rundef_git_sha` is `GIT_SHA` from `.rundef.json` when the HTTP fetch
returned 200 (`none` on failure), and `reason_of_commit sha` is the result
of `_update_build_reason`'s repository lookup for that commit (`none` when
the commit is unknown, the `gitdb.exc.BadName` path, which leaves
`build_reason` unset). -/
structure CommitEnv where
  rundef_git_sha : Option String
  reason_of_commit : String → Option String
  create_guards_pass : Bool
  deriving Inhabited

/-- State effect of `update_build_commit_id` (tasks.py:719-742): on a 200
response store the commit id, then `_update_build_reason` fills
`build_reason` from the commit message unless it is already set (and only
because `commit_id` is set — tasks.py:663). -/
def update_build_commit_id_step (env : CommitEnv) (st : CommitState) :
    CommitState :=
  match env.rundef_git_sha with
  | none => st
  | some sha =>
    let st := { st with commit_id := some sha }
    if st.build_reason.isSome then st
    else { st with build_reason := env.reason_of_commit sha }

/-- The template context a compiled job definition is rendered from:
`"build_commit": lcl_build.commit_id` (tasks.py:463). -/
structure RenderedJob where
  build_commit : Option String
  deriving Repr, DecidableEq

/-- `create_build_run` (tasks.py:331-342) as seen by the chain: when
`build.build_reason` is unset the task re-schedules `update_build_reason`
and retries without rendering; otherwise (when the remaining guards and
device-type lookup succeed) it renders a definition whose context carries
the build's commit id. -/
def create_build_run_step (env : CommitEnv) (st : CommitState) :
    Option RenderedJob :=
  if st.build_reason.isSome then
    if env.create_guards_pass then some { build_commit := st.commit_id }
    else none
  else
    none

/-- The tasks appearing in the ingest chain of views.py:243. -/
inductive ChainTask
  | updateCommitId
  | tagRuns
  | createRun (dev_name : String)
  deriving Repr, DecidableEq

/-- Execute one chain task; `create_build_run` emits at most one rendered
definition and the other tasks none. -/
def runChainTask (env : CommitEnv) (st : CommitState) :
    ChainTask → CommitState × List RenderedJob
  | ChainTask.updateCommitId => (update_build_commit_id_step env st, [])
  | ChainTask.tagRuns => (st, [])
  | ChainTask.createRun _ =>
    (st, (create_build_run_step env st).toList)

/-- Run a linearized chain, collecting every rendered definition. -/
def runChain (env : CommitEnv) (st : CommitState) :
    List ChainTask → CommitState × List RenderedJob
  | [] => (st, [])
  | t :: rest =>
    let step := runChainTask env st t
    let tail := runChain env step.1 rest
    (tail.1, step.2 ++ tail.2)

/-- The execution orders the celery chain
`update_build_commit_id.si | tag_build_runs.si | group(create_build_run.si)`
permits: the two chained tasks in order, then the group members in any
order. -/
def chainLinearization (dev_names : List String) (l : List ChainTask) : Prop :=
  ∃ p : List String, p.Perm dev_names ∧
    l = ChainTask.updateCommitId :: ChainTask.tagRuns ::
      p.map ChainTask.createRun

/-! ### Bounded restarts (`restart_failed_runs`, core/tasks.py:263-282) -/

/-- `settings.MAX_BUILD_RESTARTS` (settings.py:184). -/
def MAX_BUILD_RESTARTS : Nat := 3

/-- The build column `restart_failed_runs` mutates. -/
structure RestartBuild where
  restart_counter : Nat
  deriving Repr, DecidableEq

/-- Configuration and the CI backend oracle for `restart_failed_runs`:
`restart_ok url` is whether `restart_ci_run` reported success for that run
url. -/
structure RestartEnv where
  max_build_restarts : Nat
  restart_failed_builds : Bool
  restart_ok : String → Bool

/-- One iteration of the `for run in request_json.get("runs")` loop
(tasks.py:274-279): for a non-PASSED run, when the counter is still below
the maximum and the project enables restarts, a re-run request is issued
(its url recorded) and `restarted` is or-ed with the request's outcome. -/
def restartStep (env : RestartEnv) (build : RestartBuild)
    (acc : Bool × List String) (run : RunInfo) : Bool × List String :=
  if run.status != "PASSED" then
    if decide (build.restart_counter < env.max_build_restarts) &&
        env.restart_failed_builds then
      (acc.1 || env.restart_ok run.url, acc.2 ++ [run.url])
    else acc
  else acc

/-- `restart_failed_runs` (tasks.py:263-282): run the loop over all reported
runs, then increment the counter once iff any restart succeeded. Returns the
updated build and the list of run urls a restart request was issued for. -/
def restart_failed_runs (env : RestartEnv) (build : RestartBuild)
    (runs : List RunInfo) : RestartBuild × List String :=
  let folded := runs.foldl (restartStep env build) (false, [])
  (if folded.1 then { build with restart_counter := build.restart_counter + 1 }
   else build,
   folded.2)

/-! ### Device OTA lifecycle (`LAVADevice`, core/models.py:575-638) -/

/-- `LAVADevice.controlled_by` choices; `CONTROL_LAVA` is the normal test
pool and `CONTROL_PDU` the OTA-in-progress mode. -/
inductive ControlMode
  | CONTROL_LAVA
  | CONTROL_PDU
  | CONTROL_EL2GO
  deriving Repr, DecidableEq

/-- The device columns the OTA transitions touch. -/
structure DeviceState where
  ota_started : Option Nat
  controlled_by : ControlMode
  deriving Repr, DecidableEq

/-- The two transitions of core/models.py:626-638; `api_ok` is whether the
LAVA health-change request (`__request_state`) succeeded, `now` is
`timezone.now()`. -/
inductive DeviceOp
  | request_maintenance (api_ok : Bool) (now : Nat)
  | request_online (api_ok : Bool)
  deriving Repr, DecidableEq

/-- `request_maintenance` stamps `ota_started` and moves the device to PDU
control; `request_online` returns it to LAVA control and leaves
`ota_started` untouched (models.py:635-638 has no assignment to it). -/
def applyDeviceOp (st : DeviceState) : DeviceOp → DeviceState
  | DeviceOp.request_maintenance api_ok now =>
    if api_ok then
      { ota_started := some now, controlled_by := ControlMode.CONTROL_PDU }
    else st
  | DeviceOp.request_online api_ok =>
    if api_ok then { st with controlled_by := ControlMode.CONTROL_LAVA }
    else st

/-- A freshly created `LAVADevice` row: `ota_started` null,
`controlled_by` defaulting to `CONTROL_LAVA`. -/
def initialDevice : DeviceState :=
  { ota_started := none, controlled_by := ControlMode.CONTROL_LAVA }

/-- Fold a sequence of transitions over a device. -/
def runDeviceOps (st : DeviceState) (ops : List DeviceOp) : DeviceState :=
  ops.foldl applyDeviceOp st

/-! ### Periodic OTA timeout sweep (`check_ota_completed`) -/

/-- The sweep deadline of spec §4.4: 30 minutes. -/
def OTA_TIMEOUT_MINUTES : Nat := 30

/-- Device columns the sweep reads and writes; `ota_evaluated` records that
the OTA outcome evaluation (target-hash comparison and result reporting) was
performed for the device. -/
structure OtaDevice where
  controlled_by : ControlMode
  ota_started : Option Nat
  ota_evaluated : Bool
  deriving Repr, DecidableEq

/-- Modelled from the spec: the body of the periodic task
`conductor.core.tasks.check_ota_completed` is not among the provided
sources — only its `CELERY_BEAT_SCHEDULE` registration (settings.py:151-156)
and its tests (core/tests.py:1112-1131) are. Per §4.4, every device in
`OtaInProgress` (PDU control) whose OTA-start timestamp is older than the
30-minute deadline is forcibly evaluated for OTA outcome and released back
to normal (LAVA) control; all other devices are left unchanged. Times are in
minutes. -/
def check_ota_completed (now : Nat) (devices : List OtaDevice) :
    List OtaDevice :=
  devices.map fun d =>
    if d.controlled_by = ControlMode.CONTROL_PDU then
      match d.ota_started with
      | some t =>
        if t + OTA_TIMEOUT_MINUTES < now then
          { d with controlled_by := ControlMode.CONTROL_LAVA,
                   ota_evaluated := true }
        else d
      | none => d
    else d

/-! ### Template fan-out (`_submit_lava_templates`, core/tasks.py:423-538) -/

/-- `LAVAJob.job_type` choices (core/models.py:721-730). -/
inductive JobType
  | JOB_LAVA
  | JOB_EL2GO
  | JOB_OTA
  | JOB_ASSEMBLE
  deriving Repr, DecidableEq

/-- The build columns `_submit_lava_templates` reads from a template's
bound build. -/
structure TmplBuild where
  url : String
  build_id : Nat
  commit_id : Option String
  deriving Repr, DecidableEq

/-- One element of the `templates` list assembled by `create_build_run`:
`{"name", "job_type", "build", "template"}`; the rendered text itself is
produced by the `render` oracle of `SubmitEnv`. -/
structure SubmitTemplate where
  name : String
  job_type : JobType
  build : Option TmplBuild
  deriving Repr, DecidableEq

/-- External collaborators of `_submit_lava_templates`: `ostree_hash_of` is
`_get_os_tree_hash` keyed by the run url; `render` gives the rendered job
definition text per template name; `submit_ids` the LAVA job ids returned
for a submitted definition; `previous_regular` is
`_retrieve_previous_build(build, [BUILD_TYPE_REGULAR])` used by assemble
jobs; `ostree_hash_empty` and `submit_jobs` are the function's flags. -/
structure SubmitEnv where
  ostree_hash_of : String → Option String
  render : String → String
  submit_ids : String → List Nat
  previous_regular : Option TmplBuild
  ostree_hash_empty : Bool
  submit_jobs : Bool

/-- A `Run` row created by `Run.objects.get_or_create`
(tasks.py:454-459). -/
structure RunRow where
  build_id : Nat
  run_name : String
  ostree_hash : Option String
  deriving Repr, DecidableEq

/-- Database side effects and collected definitions of the fan-out. -/
structure SubmitState where
  runs : List RunRow
  jobs : List Nat
  defs : List String
  deriving Repr, DecidableEq

/-- Termination of the fan-out: `finished ds` is the normal return of the
collected definition list; `aborted` models the early `return` on an empty
rendered definition (tasks.py:510-513) and the `AttributeError` of an
assemble job without a previous regular build (tasks.py:436-437). -/
inductive SubmitResult
  | finished (definitions : List String)
  | aborted
  deriving Repr, DecidableEq

/-- The run url a template's artifacts are fetched from
(tasks.py:433-437): `{build.url}runs/{run_name}/`, with assemble jobs
redirected to the previous regular build. -/
def templateRunUrl (env : SubmitEnv) (t : SubmitTemplate)
    (run_name : String) : Option String :=
  if t.job_type == JobType.JOB_ASSEMBLE then
    env.previous_regular.map fun pb => pb.url ++ "runs/" ++ run_name ++ "/"
  else
    t.build.map fun b => b.url ++ "runs/" ++ run_name ++ "/"

/-- The per-template loop of `_submit_lava_templates` (tasks.py:429-537):
skip templates without a bound build; abort on an assemble job with no
previous build; skip the template when the OSTree hash is missing (unless
`ostree_hash_empty`), creating no Run row for it; otherwise create the Run
row, render, abort when the rendering is empty, collect the definition, and
when submitting also create a `LAVAJob` row per returned id. -/
def submitTemplatesGo (env : SubmitEnv) (run_name : String) :
    List SubmitTemplate → SubmitState → SubmitState × SubmitResult
  | [], st => (st, SubmitResult.finished st.defs)
  | t :: rest, st =>
    match t.build with
    | none => submitTemplatesGo env run_name rest st
    | some lcl_build =>
      match templateRunUrl env t run_name with
      | none => (st, SubmitResult.aborted)
      | some run_url =>
        let ostree_hash := env.ostree_hash_of run_url
        if ostree_hash.isNone && !env.ostree_hash_empty then
          submitTemplatesGo env run_name rest st
        else
          let st := { st with runs := st.runs ++
            [{ build_id := lcl_build.build_id, run_name := run_name,
               ostree_hash := ostree_hash }] }
          let d := env.render t.name
          if d == "" then (st, SubmitResult.aborted)
          else
            let st := { st with defs := st.defs ++ [d] }
            if !env.submit_jobs then submitTemplatesGo env run_name rest st
            else
              let st := { st with jobs := st.jobs ++ env.submit_ids d }
              submitTemplatesGo env run_name rest st

/-- `_submit_lava_templates` entry point: empty accumulators. -/
def _submit_lava_templates (env : SubmitEnv) (templates : List SubmitTemplate)
    (run_name : String) : SubmitState × SubmitResult :=
  submitTemplatesGo env run_name templates
    { runs := [], jobs := [], defs := [] }

/-! ## Theorems -/

/-! ### C3: the restart counter is bounded by the configured maximum -/

theorem restartFold_guard_false (env : RestartEnv) (build : RestartBuild)
    (runs : List RunInfo) (acc : Bool × List String)
    (h : (decide (build.restart_counter < env.max_build_restarts) &&
      env.restart_failed_builds) = false) :
    runs.foldl (restartStep env build) acc = acc := by
  induction runs generalizing acc with
  | nil => rfl
  | cons r rest ih =>
    simp only [List.foldl_cons, restartStep, h, Bool.false_eq_true, if_false,
      ite_self]
    exact ih acc

theorem restartFold_of_guard_ne (env : RestartEnv) (build : RestartBuild)
    (runs : List RunInfo)
    (h : runs.foldl (restartStep env build) (false, []) ≠ (false, [])) :
    build.restart_counter < env.max_build_restarts := by
  by_cases hg : (decide (build.restart_counter < env.max_build_restarts) &&
      env.restart_failed_builds) = true
  · simp only [Bool.and_eq_true, decide_eq_true_eq] at hg
    exact hg.1
  · exact absurd (restartFold_guard_false env build runs (false, [])
      (Bool.eq_false_iff.2 hg)) h

/-- C3: a Build's restart counter never exceeds the configured maximum
(`MAX_BUILD_RESTARTS`): a failed-status callback increments the counter at
most once no matter how many sub-runs failed, restart requests are issued
only while the counter is strictly below the maximum, and once the counter
equals the maximum a further failed callback issues no restart request and
leaves the counter (indeed the build) unchanged. -/
theorem C3_restart_counter_bounded (env : RestartEnv) (build : RestartBuild)
    (runs : List RunInfo)
    (h : build.restart_counter ≤ env.max_build_restarts) :
    ((restart_failed_runs env build runs).1.restart_counter ≤
      env.max_build_restarts) ∧
    ((restart_failed_runs env build runs).1.restart_counter ≤
      build.restart_counter + 1) ∧
    ((restart_failed_runs env build runs).2 ≠ [] →
      build.restart_counter < env.max_build_restarts) ∧
    (build.restart_counter = env.max_build_restarts →
      (restart_failed_runs env build runs).2 = [] ∧
      (restart_failed_runs env build runs).1 = build) := by
  simp only [restart_failed_runs]
  by_cases hf : (runs.foldl (restartStep env build) (false, [])).1 = true
  · have hne : runs.foldl (restartStep env build) (false, []) ≠ (false, []) := by
      intro heq
      rw [heq] at hf
      exact Bool.false_ne_true hf
    have hlt := restartFold_of_guard_ne env build runs hne
    refine ⟨?_, ?_, fun _ => hlt, fun hmax => absurd hmax (by omega)⟩
    · simp only [hf, if_true]
      omega
    · simp only [hf, if_true]
      omega
  · have hf' : (runs.foldl (restartStep env build) (false, [])).1 = false :=
      Bool.eq_false_iff.2 hf
    refine ⟨?_, ?_, ?_, ?_⟩
    · simp only [hf', Bool.false_eq_true, if_false]
      exact h
    · simp only [hf', Bool.false_eq_true, if_false]
      omega
    · intro hne
      refine restartFold_of_guard_ne env build runs ?_
      intro hcontra
      rw [hcontra] at hne
      exact hne rfl
    · intro hmax
      have hg : (decide (build.restart_counter < env.max_build_restarts) &&
          env.restart_failed_builds) = false := by
        have : ¬ build.restart_counter < env.max_build_restarts := by omega
        simp [this]
      have hconst := restartFold_guard_false env build runs (false, []) hg
      rw [hconst]
      exact ⟨rfl, rfl⟩

/-- Concrete environment for the restart witness. -/
def restartEnvW : RestartEnv where
  max_build_restarts := MAX_BUILD_RESTARTS
  restart_failed_builds := true
  restart_ok := fun _ => true

theorem C3_restart_counter_bounded_witness :
    ((RestartBuild.mk 0).restart_counter ≤ restartEnvW.max_build_restarts) ∧
    ((restart_failed_runs restartEnvW (RestartBuild.mk 0)
        [{ name := "r", url := "u", status := "FAILED" }]).1.restart_counter ≤
      restartEnvW.max_build_restarts) :=
  ⟨by decide,
   (C3_restart_counter_bounded restartEnvW (RestartBuild.mk 0)
      [{ name := "r", url := "u", status := "FAILED" }] (by decide)).1⟩

/-! ### C5: the OTA-start timestamp vs control mode -/

/-- C5 counterexample: after a successful `request_maintenance` (entering
OTA) followed by a successful `request_online` (back to normal control), the
device is under `CONTROL_LAVA` yet its `ota_started` timestamp is still set:
`request_online` (models.py:635-638) contains no assignment clearing it, so
"OTA-start timestamp is non-null iff control mode is OtaInProgress" is false
for this device. -/
theorem C5_counterexample :
    (runDeviceOps initialDevice
      [DeviceOp.request_maintenance true 5,
       DeviceOp.request_online true]).controlled_by =
      ControlMode.CONTROL_LAVA ∧
    (runDeviceOps initialDevice
      [DeviceOp.request_maintenance true 5,
       DeviceOp.request_online true]).ota_started = some 5 :=
  ⟨rfl, rfl⟩

theorem deviceInv_apply (st : DeviceState) (op : DeviceOp)
    (h : st.controlled_by = ControlMode.CONTROL_PDU → st.ota_started ≠ none) :
    (applyDeviceOp st op).controlled_by = ControlMode.CONTROL_PDU →
      (applyDeviceOp st op).ota_started ≠ none := by
  cases op with
  | request_maintenance ok now =>
    cases ok with
    | false => simpa [applyDeviceOp] using h
    | true => simp [applyDeviceOp]
  | request_online ok =>
    cases ok with
    | false => simpa [applyDeviceOp] using h
    | true => simp [applyDeviceOp]

theorem deviceInv_run (ops : List DeviceOp) (st : DeviceState)
    (h : st.controlled_by = ControlMode.CONTROL_PDU → st.ota_started ≠ none) :
    (runDeviceOps st ops).controlled_by = ControlMode.CONTROL_PDU →
      (runDeviceOps st ops).ota_started ≠ none := by
  induction ops generalizing st with
  | nil => exact h
  | cons op rest ih =>
    exact ih (applyDeviceOp st op) (deviceInv_apply st op h)

/-- C5 (amended): entering `OtaInProgress` via a successful
`request_maintenance` sets the OTA-start timestamp, but `request_online`
leaves the timestamp untouched — it is NOT cleared on returning to Normal.
Hence only the forward direction of the claimed invariant holds: starting
from a fresh device, whenever the control mode is `OtaInProgress`
(`CONTROL_PDU`) the timestamp is non-null; after returning to Normal it may
remain non-null (see the counterexample). -/
theorem C5_ota_timestamp_amended :
    (∀ (st : DeviceState) (ok : Bool),
      (applyDeviceOp st (DeviceOp.request_online ok)).ota_started =
        st.ota_started) ∧
    (∀ (st : DeviceState) (now : Nat),
      (applyDeviceOp st (DeviceOp.request_maintenance true now)).ota_started =
        some now) ∧
    (∀ ops : List DeviceOp,
      (runDeviceOps initialDevice ops).controlled_by =
          ControlMode.CONTROL_PDU →
        (runDeviceOps initialDevice ops).ota_started ≠ none) := by
  refine ⟨?_, ?_, ?_⟩
  · intro st ok
    cases ok <;> simp [applyDeviceOp]
  · intro st now
    simp [applyDeviceOp]
  · intro ops
    exact deviceInv_run ops initialDevice (by intro h; cases h)

theorem C5_ota_timestamp_amended_witness :
    (runDeviceOps initialDevice
      [DeviceOp.request_maintenance true 7]).controlled_by =
      ControlMode.CONTROL_PDU ∧
    (runDeviceOps initialDevice
      [DeviceOp.request_maintenance true 7]).ota_started ≠ none :=
  ⟨rfl, C5_ota_timestamp_amended.2.2 [DeviceOp.request_maintenance true 7] rfl⟩

/-! ### C10: tag addition appends, removal erases the first occurrence -/

/-- C10 counterexample: on a target whose tag list already holds the tag
twice (exactly the state double-adding produces), removing the tag twice is
NOT the same as removing it once — Python's `list.remove` only deletes the
first occurrence, so the membership check does not make removal idempotent
in general. -/
theorem C10_counterexample :
    changeTagTargets
        (changeTagTargets [{ version := 5, tags := ["promoted", "promoted"] }]
          5 "promoted" false)
        5 "promoted" false ≠
      changeTagTargets [{ version := 5, tags := ["promoted", "promoted"] }]
        5 "promoted" false := by
  decide

theorem applyTagChange_add_twice (bid : Nat) (tag : String) (e : TargetEntry)
    (hv : e.version = bid) :
    applyTagChange bid tag true (applyTagChange bid tag true e) =
      { e with tags := e.tags ++ [tag] ++ [tag] } := by
  simp [applyTagChange, hv]

theorem applyTagChange_add_once (bid : Nat) (tag : String) (e : TargetEntry)
    (hv : e.version = bid) :
    applyTagChange bid tag true e = { e with tags := e.tags ++ [tag] } := by
  simp [applyTagChange, hv]

theorem applyTagChange_remove_idem (bid : Nat) (tag : String)
    (e : TargetEntry) (h : e.tags.count tag ≤ 1) :
    applyTagChange bid tag false (applyTagChange bid tag false e) =
      applyTagChange bid tag false e := by
  by_cases hv : e.version = bid
  · by_cases hm : tag ∈ e.tags
    · have hpos : 0 < e.tags.count tag := List.count_pos_iff.2 hm
      have herase := List.count_erase_self tag e.tags
      have hzero : (e.tags.erase tag).count tag = 0 := by omega
      have hnm : tag ∉ e.tags.erase tag := by
        intro hc
        have := List.count_pos_iff.2 hc
        omega
      simp [applyTagChange, hv, hm, hnm]
    · simp [applyTagChange, hv, hm]
  · simp [applyTagChange, hv]

/-- C10 (amended): tag addition is not idempotent — `_change_tag`
unconditionally appends, so adding the same tag twice to the matching target
yields a duplicated tag entry, and the twice-added document differs from the
once-added one. Tag removal checks membership but removes only the FIRST
occurrence, so it is idempotent precisely on documents whose targets carry
the tag at most once; on a duplicated list (as produced by double-adding) a
single removal leaves an occurrence behind (see the counterexample). -/
theorem C10_tag_mutation_amended (ts : List TargetEntry) (bid : Nat)
    (tag : String) (i : Nat) (e : TargetEntry)
    (hi : ts[i]? = some e) (hv : e.version = bid)
    (hnodup : ∀ e' ∈ ts, e'.tags.count tag ≤ 1) :
    ((changeTagTargets (changeTagTargets ts bid tag true) bid tag true)[i]? =
      some { e with tags := e.tags ++ [tag] ++ [tag] }) ∧
    (changeTagTargets (changeTagTargets ts bid tag true) bid tag true ≠
      changeTagTargets ts bid tag true) ∧
    (changeTagTargets (changeTagTargets ts bid tag false) bid tag false =
      changeTagTargets ts bid tag false) := by
  have hdouble :
      (changeTagTargets (changeTagTargets ts bid tag true) bid tag true)[i]? =
        some { e with tags := e.tags ++ [tag] ++ [tag] } := by
    simp [changeTagTargets, List.map_map, List.getElem?_map, hi,
      Function.comp, applyTagChange_add_twice bid tag e hv]
  have hsingle : (changeTagTargets ts bid tag true)[i]? =
      some { e with tags := e.tags ++ [tag] } := by
    simp [changeTagTargets, List.getElem?_map, hi,
      applyTagChange_add_once bid tag e hv]
  refine ⟨hdouble, ?_, ?_⟩
  · intro heq
    rw [heq] at hdouble
    have htrans := hsingle.symm.trans hdouble
    have hentry := Option.some.inj htrans
    have htags := congrArg TargetEntry.tags hentry
    have hlen := congrArg List.length htags
    simp only [List.length_append, List.length_cons, List.length_nil] at hlen
    omega
  · simp only [changeTagTargets, List.map_map]
    refine List.map_congr_left ?_
    intro a ha
    simp only [Function.comp_apply]
    exact applyTagChange_remove_idem bid tag a (hnodup a ha)

/-- Concrete targets document for the C10 witness. -/
def c10ts : List TargetEntry := [{ version := 5, tags := ["promoted"] }]

theorem C10_tag_mutation_amended_witness :
    (c10ts[0]? = some { version := 5, tags := ["promoted"] }) ∧
    (TargetEntry.version { version := 5, tags := ["promoted"] } = 5) ∧
    (∀ e' ∈ c10ts, e'.tags.count "promoted" ≤ 1) ∧
    (changeTagTargets (changeTagTargets c10ts 5 "promoted" false)
        5 "promoted" false =
      changeTagTargets c10ts 5 "promoted" false) :=
  ⟨rfl, rfl, by decide,
   (C10_tag_mutation_amended c10ts 5 "promoted" 0
      { version := 5, tags := ["promoted"] } rfl rfl (by decide)).2.2⟩

/-! ### C9: signing is all-or-nothing on misconfiguration -/

/-- C9: `_change_tag` never publishes without a signature: if the project's
private key or key id is missing, or the configured key is neither Ed25519
nor RSA, no signature is produced and no PUT of the new targets document is
attempted; conversely, whenever a document is published, signing succeeded
with one of the two supported methods. -/
theorem C9_signing_all_or_nothing (p : SigProject) (bid : Nat) (tag : String)
    (add : Bool) (fetched : Option TargetsDoc) (dbg : Bool)
    (hmis : p.privkey = none ∨ p.keyid = none ∨
      p.privkey = some PemKey.otherKey) :
    ((_change_tag p bid tag add fetched dbg).signature = none ∧
      (_change_tag p bid tag add fetched dbg).published = none) ∧
    (∀ q : SigProject, ∀ d : TargetsDoc,
      (_change_tag q bid tag add fetched dbg).published = some d →
      ∃ m, (_change_tag q bid tag add fetched dbg).signature = some m ∧
        (m = "ed25519" ∨ m = "rsassa-pss-sha256")) := by
  constructor
  · rcases p with ⟨pk, kid⟩
    rcases hmis with h | h | h
    · simp only at h
      subst h
      exact ⟨rfl, rfl⟩
    · simp only at h
      subst h
      cases pk with
      | none => exact ⟨rfl, rfl⟩
      | some k => exact ⟨rfl, rfl⟩
    · simp only at h
      subst h
      cases kid with
      | none => exact ⟨rfl, rfl⟩
      | some kv =>
        cases fetched with
        | none => exact ⟨rfl, rfl⟩
        | some meta => exact ⟨rfl, rfl⟩
  · intro q d hpub
    rcases q with ⟨pk, kid⟩
    cases pk with
    | none => exact absurd hpub (by simp [_change_tag])
    | some k =>
      cases kid with
      | none => exact absurd hpub (by simp [_change_tag])
      | some kv =>
        cases fetched with
        | none => exact absurd hpub (by simp [_change_tag])
        | some meta =>
          cases k with
          | ed25519 =>
            exact ⟨"ed25519", rfl, Or.inl rfl⟩
          | rsa =>
            exact ⟨"rsassa-pss-sha256", rfl, Or.inr rfl⟩
          | otherKey => exact absurd hpub (by simp [_change_tag])

theorem C9_signing_all_or_nothing_witness :
    ((SigProject.mk none none).privkey = none ∨
      (SigProject.mk none none).keyid = none ∨
      (SigProject.mk none none).privkey = some PemKey.otherKey) ∧
    ((_change_tag (SigProject.mk none none) 5 "promoted" true none
        false).signature = none ∧
      (_change_tag (SigProject.mk none none) 5 "promoted" true none
        false).published = none) :=
  ⟨Or.inl rfl,
   (C9_signing_all_or_nothing (SigProject.mk none none) 5 "promoted" true
      none false (Or.inl rfl)).1⟩

/-! ### C7: the periodic OTA timeout sweep -/

/-- C7 (spec-modelled): after one run of `check_ota_completed`, every device
that was in `OtaInProgress` (PDU control) with an OTA-start timestamp older
than 30 minutes appears released back to normal (LAVA) control with its OTA
outcome evaluated — even though no Finished notification is involved —
while a device whose timestamp is not older than 30 minutes, is not under
PDU control, or has no timestamp, appears unchanged; the sweep touches no
other rows (the device count is preserved). -/
theorem C7_ota_sweep (now : Nat) (devices : List OtaDevice) (d : OtaDevice)
    (hd : d ∈ devices) :
    ((check_ota_completed now devices).length = devices.length) ∧
    (∀ t, d.controlled_by = ControlMode.CONTROL_PDU →
      d.ota_started = some t → t + OTA_TIMEOUT_MINUTES < now →
      { d with controlled_by := ControlMode.CONTROL_LAVA,
               ota_evaluated := true } ∈ check_ota_completed now devices) ∧
    (∀ t, d.ota_started = some t → ¬ (t + OTA_TIMEOUT_MINUTES < now) →
      d ∈ check_ota_completed now devices) ∧
    (d.controlled_by ≠ ControlMode.CONTROL_PDU →
      d ∈ check_ota_completed now devices) ∧
    (d.ota_started = none → d ∈ check_ota_completed now devices) := by
  refine ⟨List.length_map _ _, ?_, ?_, ?_, ?_⟩
  · intro t hpdu hstart hold
    have hmem := List.mem_map_of_mem (fun dev =>
      if dev.controlled_by = ControlMode.CONTROL_PDU then
        match dev.ota_started with
        | some t =>
          if t + OTA_TIMEOUT_MINUTES < now then
            { dev with controlled_by := ControlMode.CONTROL_LAVA,
                       ota_evaluated := true }
          else dev
        | none => dev
      else dev) hd
    simpa [check_ota_completed, hpdu, hstart, hold] using hmem
  · intro t hstart hyoung
    have hmem := List.mem_map_of_mem (fun dev =>
      if dev.controlled_by = ControlMode.CONTROL_PDU then
        match dev.ota_started with
        | some t =>
          if t + OTA_TIMEOUT_MINUTES < now then
            { dev with controlled_by := ControlMode.CONTROL_LAVA,
                       ota_evaluated := true }
          else dev
        | none => dev
      else dev) hd
    by_cases hpdu : d.controlled_by = ControlMode.CONTROL_PDU
    · simpa [check_ota_completed, hpdu, hstart, hyoung] using hmem
    · simpa [check_ota_completed, hpdu] using hmem
  · intro hpdu
    have hmem := List.mem_map_of_mem (fun dev =>
      if dev.controlled_by = ControlMode.CONTROL_PDU then
        match dev.ota_started with
        | some t =>
          if t + OTA_TIMEOUT_MINUTES < now then
            { dev with controlled_by := ControlMode.CONTROL_LAVA,
                       ota_evaluated := true }
          else dev
        | none => dev
      else dev) hd
    simpa [check_ota_completed, hpdu] using hmem
  · intro hstart
    have hmem := List.mem_map_of_mem (fun dev =>
      if dev.controlled_by = ControlMode.CONTROL_PDU then
        match dev.ota_started with
        | some t =>
          if t + OTA_TIMEOUT_MINUTES < now then
            { dev with controlled_by := ControlMode.CONTROL_LAVA,
                       ota_evaluated := true }
          else dev
        | none => dev
      else dev) hd
    by_cases hpdu : d.controlled_by = ControlMode.CONTROL_PDU
    · simpa [check_ota_completed, hpdu, hstart] using hmem
    · simpa [check_ota_completed, hpdu] using hmem

/-- Concrete stale device for the C7 witness: PDU control, OTA started at
minute 0, sweep at minute 31 (as in `test_check_ota_completed`). -/
def c7dev : OtaDevice :=
  { controlled_by := ControlMode.CONTROL_PDU, ota_started := some 0,
    ota_evaluated := false }

theorem C7_ota_sweep_witness :
    (c7dev ∈ [c7dev]) ∧
    ({ c7dev with controlled_by := ControlMode.CONTROL_LAVA,
                  ota_evaluated := true } ∈ check_ota_completed 31 [c7dev]) :=
  ⟨List.mem_singleton.2 rfl,
   (C7_ota_sweep 31 [c7dev] c7dev (List.mem_singleton.2 rfl)).2.1 0
     rfl rfl (by decide)⟩

/-! ### C8: a missing OSTree hash skips one job, not the whole fan-out -/

theorem submitTemplatesGo_skip (env : SubmitEnv) (run_name : String)
    (t : SubmitTemplate) (b : TmplBuild) (u : String)
    (hb : t.build = some b)
    (hu : templateRunUrl env t run_name = some u)
    (hh : env.ostree_hash_of u = none)
    (he : env.ostree_hash_empty = false) :
    ∀ (xs : List SubmitTemplate) (st : SubmitState) (ys : List SubmitTemplate),
      submitTemplatesGo env run_name (xs ++ t :: ys) st =
        submitTemplatesGo env run_name (xs ++ ys) st := by
  intro xs
  induction xs with
  | nil =>
    intro st ys
    simp [submitTemplatesGo, hb, hu, hh, he]
  | cons x rest ih =>
    intro st ys
    simp only [List.cons_append]
    cases hxb : x.build with
    | none =>
      simp only [submitTemplatesGo, hxb]
      exact ih st ys
    | some lb =>
      cases hxu : templateRunUrl env x run_name with
      | none => simp only [submitTemplatesGo, hxb, hxu]
      | some xu =>
        simp only [submitTemplatesGo, hxb, hxu]
        split
        · exact ih st ys
        · split
          · rfl
          · split
            · exact ih _ ys
            · exact ih _ ys

/-- C8: during the per-device-type fan-out of `_submit_lava_templates`, a
missing OSTree content hash for one template's run url is a soft failure:
processing the template list with that template present is identical to
processing it with the template removed — no Run row is created for it, no
definition is rendered or job submitted for it, and every remaining template
is still processed. -/
theorem C8_ostree_hash_missing_soft (env : SubmitEnv)
    (xs ys : List SubmitTemplate) (t : SubmitTemplate) (run_name : String)
    (b : TmplBuild) (u : String)
    (hb : t.build = some b)
    (hu : templateRunUrl env t run_name = some u)
    (hh : env.ostree_hash_of u = none)
    (he : env.ostree_hash_empty = false) :
    _submit_lava_templates env (xs ++ t :: ys) run_name =
      _submit_lava_templates env (xs ++ ys) run_name :=
  submitTemplatesGo_skip env run_name t b u hb hu hh he xs
    { runs := [], jobs := [], defs := [] } ys

/-- Concrete fan-out environment for the C8 witness: the hash is missing for
the first template's run url but present for the second's. -/
def c8env : SubmitEnv where
  ostree_hash_of := fun url =>
    if url == "https://ci/b1/runs/devA/" then none else some "hash1"
  render := fun name => "definition-" ++ name
  submit_ids := fun _ => [11]
  previous_regular := none
  ostree_hash_empty := false
  submit_jobs := true

/-- The build with the missing hash. -/
def c8b1 : TmplBuild where
  url := "https://ci/b1/"
  build_id := 1
  commit_id := some "sha1"

/-- The build with a resolvable hash. -/
def c8b2 : TmplBuild where
  url := "https://ci/b2/"
  build_id := 2
  commit_id := some "sha2"

/-- The template whose hash is missing (bound to build b1). -/
def c8missing : SubmitTemplate where
  name := "job-a"
  job_type := JobType.JOB_LAVA
  build := some c8b1

/-- A second template whose hash resolves (bound to build b2). -/
def c8present : SubmitTemplate where
  name := "job-b"
  job_type := JobType.JOB_LAVA
  build := some c8b2

theorem C8_ostree_hash_missing_soft_witness :
    (c8missing.build = some c8b1) ∧
    (templateRunUrl c8env c8missing "devA" = some "https://ci/b1/runs/devA/") ∧
    (c8env.ostree_hash_of "https://ci/b1/runs/devA/" = none) ∧
    (c8env.ostree_hash_empty = false) ∧
    (_submit_lava_templates c8env [c8missing, c8present] "devA" =
      _submit_lava_templates c8env [c8present] "devA") :=
  ⟨rfl, by decide, by decide, rfl,
   C8_ostree_hash_missing_soft c8env [] [c8present] c8missing "devA"
     c8b1 "https://ci/b1/runs/devA/" rfl (by decide) (by decide) rfl⟩

/-! ### C4: commit-id resolution happens before job rendering -/

theorem runChain_creates_state (cenv : CommitEnv) (q : List String)
    (st : CommitState) :
    (runChain cenv st (q.map ChainTask.createRun)).1 = st := by
  induction q generalizing st with
  | nil => rfl
  | cons d rest ih =>
    simp only [List.map_cons, runChain, runChainTask]
    exact ih st

theorem runChain_creates_renders (cenv : CommitEnv) (q : List String)
    (st : CommitState) (r : RenderedJob)
    (hr : r ∈ (runChain cenv st (q.map ChainTask.createRun)).2) :
    create_build_run_step cenv st = some r := by
  induction q generalizing st with
  | nil => cases hr
  | cons d rest ih =>
    simp only [List.map_cons, runChain, runChainTask, List.mem_append] at hr
    rcases hr with hr | hr
    · rcases hst : create_build_run_step cenv st with _ | rj
      · rw [hst] at hr
        cases hr
      · rw [hst] at hr
        simp only [Option.toList_some, List.mem_singleton] at hr
        subst hr
        rfl
    · exact ih st hr

theorem update_step_inv (cenv : CommitEnv) (st : CommitState)
    (h : st.build_reason.isSome → st.commit_id.isSome) :
    (update_build_commit_id_step cenv st).build_reason.isSome →
      (update_build_commit_id_step cenv st).commit_id.isSome := by
  unfold update_build_commit_id_step
  cases cenv.rundef_git_sha with
  | none => exact h
  | some sha =>
    intro _
    by_cases hr : st.build_reason.isSome <;> simp [hr]

/-- C4: for every ingest that schedules the test workflow
(the celery chain `update_build_commit_id | tag_build_runs |
group(create_build_run …)` of views.py:243), in every execution order the
chain permits and from any build state satisfying the code's invariant that
a stored `build_reason` presupposes a stored commit id, every job definition
the fan-out renders carries a resolved (non-null) commit id — and when the
commit fetch succeeded with `sha`, every rendered definition carries exactly
that durably stored `sha`. -/
theorem C4_commit_before_render (cenv : CommitEnv) (env : IngestEnv)
    (db : Db) (ev : JobservEvent) (pk : Nat) (u : String)
    (devs : List String)
    (hw : Sched.testWorkflow pk u devs ∈
      (process_jobserv_webhook env db ev).scheduled)
    (l : List ChainTask) (hl : chainLinearization devs l)
    (st0 : CommitState)
    (hinv : st0.build_reason.isSome → st0.commit_id.isSome) :
    (∀ r ∈ (runChain cenv st0 l).2, r.build_commit ≠ none) ∧
    (∀ sha, cenv.rundef_git_sha = some sha →
      ∀ r ∈ (runChain cenv st0 l).2, r.build_commit = some sha) := by
  obtain ⟨p, hp, hlist⟩ := hl
  subst hlist
  have hstep :
      runChain cenv st0 (ChainTask.updateCommitId :: ChainTask.tagRuns ::
        p.map ChainTask.createRun) =
      runChain cenv (update_build_commit_id_step cenv st0)
        (p.map ChainTask.createRun) := by
    simp [runChain, runChainTask]
  rw [hstep]
  set st1 := update_build_commit_id_step cenv st0 with hst1
  have hinv1 : st1.build_reason.isSome → st1.commit_id.isSome :=
    update_step_inv cenv st0 hinv
  constructor
  · intro r hr
    have hcreate := runChain_creates_renders cenv p st1 r hr
    unfold create_build_run_step at hcreate
    by_cases hreason : st1.build_reason.isSome
    · simp only [hreason, if_true] at hcreate
      by_cases hguard : cenv.create_guards_pass
      · simp only [hguard, if_true, Option.some.injEq] at hcreate
        have hcommit := hinv1 hreason
        intro hnone
        rw [← hcreate] at hnone
        simp only at hnone
        rw [hnone] at hcommit
        cases hcommit
      · simp [hguard] at hcreate
    · simp [hreason] at hcreate
  · intro sha hsha r hr
    have hcreate := runChain_creates_renders cenv p st1 r hr
    have hcommit1 : st1.commit_id = some sha := by
      rw [hst1]
      unfold update_build_commit_id_step
      rw [hsha]
      by_cases hreason : st0.build_reason.isSome
      · simp [hreason]
      · simp [hreason]
    unfold create_build_run_step at hcreate
    by_cases hreason : st1.build_reason.isSome
    · simp only [hreason, if_true] at hcreate
      by_cases hguard : cenv.create_guards_pass
      · simp only [hguard, if_true, Option.some.injEq] at hcreate
        rw [← hcreate]
        exact hcommit1
      · simp [hguard] at hcreate
    · simp [hreason] at hcreate

/-- Shared concrete ingest fixtures. -/
def ingestEnvW : IngestEnv where
  projects := [{ name := "p1", default_branch := "main" }]
  deviceTypes := []

def ingestEvW : JobservEvent where
  build_id := 1
  url := "https://api.foundries.io/projects/p1/lmp/builds/73/"
  trigger_name := "platform-main"
  status := "PASSED"
  reason := none
  runs := [{ name := "devA", url := "https://api.foundries.io/projects/p1/lmp/builds/73/runs/devA/", status := "PASSED" }]

def dbEmpty : Db := { nextPk := 1, builds := [] }

/-- Oracles for the C4 witness: the commit fetch succeeds. -/
def cenvW : CommitEnv where
  rundef_git_sha := some "abc123"
  reason_of_commit := fun _ => some "commit message"
  create_guards_pass := true

def c4chain : List ChainTask :=
  [ChainTask.updateCommitId, ChainTask.tagRuns, ChainTask.createRun "devA"]

theorem C4_commit_before_render_witness :
    (Sched.testWorkflow 1
        "https://api.foundries.io/projects/p1/lmp/builds/73/runs/devA/"
        ["devA"] ∈
      (process_jobserv_webhook ingestEnvW dbEmpty ingestEvW).scheduled) ∧
    chainLinearization ["devA"] c4chain ∧
    (∀ r ∈ (runChain cenvW { commit_id := none, build_reason := none }
        c4chain).2, r.build_commit ≠ none) :=
  ⟨by decide, ⟨["devA"], List.Perm.refl _, rfl⟩,
   (C4_commit_before_render cenvW ingestEnvW dbEmpty ingestEvW 1
      "https://api.foundries.io/projects/p1/lmp/builds/73/runs/devA/"
      ["devA"] (by decide) c4chain ⟨["devA"], List.Perm.refl _, rfl⟩
      { commit_id := none, build_reason := none } (by intro h; cases h)).1⟩

/-! ### C6: build classification from the trigger label -/

/-- C6 counterexample: the trigger `"platform-containers"` contains
`"platform"` but the handler classifies it as a Containers build — the
`"containers"` check overwrites the earlier assignment (views.py:184-185),
so "a trigger containing platform yields a Regular build" is false. -/
theorem C6_counterexample :
    pyIn "platform" "platform-containers" = true ∧
    classifyTrigger "platform-containers" = some BuildType.CONTAINERS ∧
    some BuildType.CONTAINERS ≠ some BuildType.REGULAR :=
  ⟨by decide, by decide, by decide⟩

/-- C6 (amended): classification is a function of the trigger label alone,
with overwrite precedence `containers` over `generate-static-deltas` over
`platform` (the default `REGULAR`): a trigger containing `"containers"`
yields Containers; otherwise one containing `"generate-static-deltas"`
yields StaticDelta; otherwise one containing `"platform"` yields Regular;
and a trigger containing none of the three creates no Build while the
handler still returns a success ("OK") response with nothing scheduled. -/
theorem C6_classification_amended :
    (∀ t, pyIn "containers" t = true →
      classifyTrigger t = some BuildType.CONTAINERS) ∧
    (∀ t, pyIn "containers" t = false →
      pyIn "generate-static-deltas" t = true →
      classifyTrigger t = some BuildType.STATIC_DELTA) ∧
    (∀ t, pyIn "containers" t = false →
      pyIn "generate-static-deltas" t = false → pyIn "platform" t = true →
      classifyTrigger t = some BuildType.REGULAR) ∧
    (∀ t, pyIn "containers" t = false →
      pyIn "generate-static-deltas" t = false → pyIn "platform" t = false →
      classifyTrigger t = none) ∧
    (∀ env db ev pn proj,
      classifyTrigger ev.trigger_name = none →
      (ev.build_id == 0) = false → (ev.url == "") = false →
      (pySplit ev.url '/')[4]? = some pn →
      env.projects.find? (fun p => p.name == pn) = some proj →
      process_jobserv_webhook env db ev =
        { db := db, response := HttpResponse.ok, scheduled := [] }) := by
  refine ⟨?_, ?_, ?_, ?_, ?_⟩
  · intro t h
    simp [classifyTrigger, h]
  · intro t h1 h2
    simp [classifyTrigger, h1, h2]
  · intro t h1 h2 h3
    simp [classifyTrigger, h1, h2, h3]
  · intro t h1 h2 h3
    simp [classifyTrigger, h1, h2, h3]
  · intro env db ev pn proj hclass hbid hurl hsplit hfind
    simp [process_jobserv_webhook, hbid, hurl, hsplit, hfind, hclass]

/-- Unclassified-trigger event for the C6 witness. -/
def ingestEvC6 : JobservEvent where
  build_id := 2
  url := "https://api.foundries.io/projects/p1/lmp/builds/74/"
  trigger_name := "build-release"
  status := "PASSED"
  reason := none
  runs := []

theorem C6_classification_amended_witness :
    (classifyTrigger ingestEvC6.trigger_name = none) ∧
    ((ingestEvC6.build_id == 0) = false) ∧
    ((ingestEvC6.url == "") = false) ∧
    ((pySplit ingestEvC6.url '/')[4]? = some "p1") ∧
    (ingestEnvW.projects.find? (fun p => p.name == "p1") =
      some { name := "p1", default_branch := "main" }) ∧
    (process_jobserv_webhook ingestEnvW dbEmpty ingestEvC6 =
      { db := dbEmpty, response := HttpResponse.ok, scheduled := [] }) :=
  ⟨by decide, by decide, by decide, by decide, by decide,
   C6_classification_amended.2.2.2.2 ingestEnvW dbEmpty ingestEvC6 "p1"
     { name := "p1", default_branch := "main" } (by decide) (by decide)
     (by decide) (by decide) (by decide)⟩

/-! ### C1: ingest idempotence on the Build table -/

/-- The spec's natural key `(project, build_id, url)`. -/
def naturalKey (url project : String) (build_id : Nat) (b : DbBuild) : Bool :=
  b.url == url && b.project == project && b.build_id == build_id

/-- Number of Build rows matching the natural key. -/
def naturalKeyCount (db : Db) (url project : String) (build_id : Nat) : Nat :=
  (db.builds.filter (naturalKey url project build_id)).length

theorem statusUpd_pk (pk : Nat) (s : String) (b : DbBuild) :
    (statusUpd pk s b).pk = b.pk := by
  unfold statusUpd
  by_cases h : (b.pk == pk) = true <;> simp [h]

theorem reasonUpd_pk (pk : Nat) (r : Option String) (b : DbBuild) :
    (reasonUpd pk r b).pk = b.pk := by
  unfold reasonUpd
  by_cases h : (b.pk == pk) = true <;> simp [h]

theorem keyMatch_statusUpd (url project : String) (bid : Nat)
    (tag : Option String) (pk : Nat) (s : String) (b : DbBuild) :
    buildKeyMatch url project bid tag (statusUpd pk s b) =
      buildKeyMatch url project bid tag b := by
  unfold statusUpd
  by_cases h : (b.pk == pk) = true <;> simp [h, buildKeyMatch]

theorem keyMatch_reasonUpd (url project : String) (bid : Nat)
    (tag : Option String) (pk : Nat) (r : Option String) (b : DbBuild) :
    buildKeyMatch url project bid tag (reasonUpd pk r b) =
      buildKeyMatch url project bid tag b := by
  unfold reasonUpd
  by_cases h : (b.pk == pk) = true <;> simp [h, buildKeyMatch]

theorem naturalKey_statusUpd (url project : String) (bid : Nat) (pk : Nat)
    (s : String) (b : DbBuild) :
    naturalKey url project bid (statusUpd pk s b) =
      naturalKey url project bid b := by
  unfold statusUpd
  by_cases h : (b.pk == pk) = true <;> simp [h, naturalKey]

theorem naturalKey_reasonUpd (url project : String) (bid : Nat) (pk : Nat)
    (r : Option String) (b : DbBuild) :
    naturalKey url project bid (reasonUpd pk r b) =
      naturalKey url project bid b := by
  unfold reasonUpd
  by_cases h : (b.pk == pk) = true <;> simp [h, naturalKey]

theorem statusUpd_idem (pk : Nat) (s : String) (b : DbBuild) :
    statusUpd pk s (statusUpd pk s b) = statusUpd pk s b := by
  unfold statusUpd
  by_cases h : (b.pk == pk) = true <;> simp [h]

theorem reasonStatusUpd_idem (pk : Nat) (s : String) (r : Option String)
    (b : DbBuild) :
    reasonUpd pk r (statusUpd pk s (reasonUpd pk r (statusUpd pk s b))) =
      reasonUpd pk r (statusUpd pk s b) := by
  unfold statusUpd reasonUpd
  by_cases h : (b.pk == pk) = true <;> simp [h]

theorem find?_map_keyInv {p : DbBuild → Bool} {f : DbBuild → DbBuild}
    (hf : ∀ b, p (f b) = p b) (l : List DbBuild) :
    (l.map f).find? p = (l.find? p).map f := by
  induction l with
  | nil => rfl
  | cons x t ih =>
    cases hx : p x with
    | true =>
      rw [List.map_cons, List.find?_cons_of_pos, List.find?_cons_of_pos]
      · rfl
      · exact hx
      · rw [hf x]
        exact hx
    | false =>
      rw [List.map_cons, List.find?_cons_of_neg, List.find?_cons_of_neg]
      · exact ih
      · simp [hx]
      · simp [hf x, hx]

theorem find?_append_none {p : DbBuild → Bool} (l₁ l₂ : List DbBuild)
    (h : l₁.find? p = none) : (l₁ ++ l₂).find? p = l₂.find? p := by
  induction l₁ with
  | nil => rfl
  | cons x t ih =>
    rw [List.find?_eq_none] at h
    have hx : ¬ p x = true := h x (by simp)
    rw [List.cons_append, List.find?_cons_of_neg _ hx]
    refine ih ?_
    rw [List.find?_eq_none]
    intro y hy
    exact h y (by simp [hy])

theorem filter_map_keyInv {p : DbBuild → Bool} {f : DbBuild → DbBuild}
    (hf : ∀ b, p (f b) = p b) (l : List DbBuild) :
    ((l.map f).filter p).length = (l.filter p).length := by
  induction l with
  | nil => rfl
  | cons x t ih =>
    simp only [List.map_cons, List.filter_cons, hf x]
    cases p x <;> simp [ih]

theorem getOrCreate_find? (db : Db) (url project : String) (bid : Nat)
    (tag : Option String) (st : String) (bt : BuildType) :
    (getOrCreateBuild db url project bid tag st bt).1.builds.find?
        (buildKeyMatch url project bid tag) =
      some (getOrCreateBuild db url project bid tag st bt).2 := by
  unfold getOrCreateBuild
  cases hf : db.builds.find? (buildKeyMatch url project bid tag) with
  | some b => exact hf
  | none =>
    simp only
    rw [find?_append_none _ _ hf]
    rw [List.find?_cons_of_pos]
    simp [buildKeyMatch]

theorem setStatus_idem (db : Db) (pk : Nat) (s : String) :
    setBuildStatus (setBuildStatus db pk s) pk s = setBuildStatus db pk s := by
  unfold setBuildStatus
  simp only [List.map_map]
  congr 1
  refine List.map_congr_left ?_
  intro b _
  simp only [Function.comp_apply]
  exact statusUpd_idem pk s b

theorem setReasonStatus_idem (db : Db) (pk : Nat) (s : String)
    (r : Option String) :
    setBuildReason (setBuildStatus
        (setBuildReason (setBuildStatus db pk s) pk r) pk s) pk r =
      setBuildReason (setBuildStatus db pk s) pk r := by
  unfold setBuildStatus setBuildReason
  simp only [List.map_map]
  congr 1
  refine List.map_congr_left ?_
  intro b _
  simp only [Function.comp_apply]
  exact reasonStatusUpd_idem pk s r b

/-- The Build-table effect of the classified path of
`process_jobserv_webhook`: get-or-create keyed on
`(url, project, build_id, tag)`, persist the latest status, and on the
PASSED static-delta path also persist the reason; the remaining branches
only schedule work. -/
def ingestCoreDb (db : Db) (ev : JobservEvent) (pn : String)
    (branch : Option String) (bt : BuildType) : Db :=
  let created := getOrCreateBuild db ev.url pn ev.build_id branch ev.status bt
  let db1 := setBuildStatus created.1 created.2.pk ev.status
  if ev.status != "PASSED" then db1
  else if pyIn "generate-static-deltas" ev.trigger_name then
    setBuildReason db1 created.2.pk ev.reason
  else db1

theorem process_db_eq_core (env : IngestEnv) (db : Db) (ev : JobservEvent)
    (pn : String) (proj : ProjectCfg) (bt : BuildType)
    (branch : Option String)
    (hbid : (ev.build_id == 0) = false) (hurl : (ev.url == "") = false)
    (hsplit : (pySplit ev.url '/')[4]? = some pn)
    (hfind : env.projects.find? (fun p => p.name == pn) = some proj)
    (hclass : classifyTrigger ev.trigger_name = some bt)
    (hbr : computeBuildBranch ev.trigger_name = Except.ok branch) :
    (process_jobserv_webhook env db ev).db =
      ingestCoreDb db ev pn branch bt := by
  simp only [process_jobserv_webhook, ingestCoreDb, hbid, hurl, hsplit, hfind,
    hclass, hbr, Bool.false_eq_true, if_false]
  split
  · rfl
  · split
    · rfl
    · split
      · split <;> rfl
      · rfl

theorem ingestCoreDb_idem (db : Db) (ev : JobservEvent) (pn : String)
    (branch : Option String) (bt : BuildType) :
    ingestCoreDb (ingestCoreDb db ev pn branch bt) ev pn branch bt =
      ingestCoreDb db ev pn branch bt := by
  rcases hgc : getOrCreateBuild db ev.url pn ev.build_id branch ev.status bt
    with ⟨db', b⟩
  have hfind1 : db'.builds.find?
      (buildKeyMatch ev.url pn ev.build_id branch) = some b := by
    have h := getOrCreate_find? db ev.url pn ev.build_id branch ev.status bt
    rw [hgc] at h
    exact h
  have hfind2 : (setBuildStatus db' b.pk ev.status).builds.find?
      (buildKeyMatch ev.url pn ev.build_id branch) =
      some (statusUpd b.pk ev.status b) := by
    show (db'.builds.map (statusUpd b.pk ev.status)).find? _ = _
    rw [find?_map_keyInv (fun x =>
      keyMatch_statusUpd ev.url pn ev.build_id branch b.pk ev.status x),
      hfind1]
    rfl
  have hgc2 : getOrCreateBuild (setBuildStatus db' b.pk ev.status) ev.url pn
      ev.build_id branch ev.status bt =
      (setBuildStatus db' b.pk ev.status, statusUpd b.pk ev.status b) := by
    unfold getOrCreateBuild
    rw [hfind2]
  by_cases h1 : (ev.status != "PASSED") = true
  · simp only [ingestCoreDb, hgc, h1, if_true, hgc2, statusUpd_pk]
    exact setStatus_idem db' b.pk ev.status
  · have h1' : (ev.status != "PASSED") = false := Bool.eq_false_iff.2 h1
    by_cases h2 : pyIn "generate-static-deltas" ev.trigger_name = true
    · -- static-delta path: the reason is persisted as well
      have hfind3 : (setBuildReason (setBuildStatus db' b.pk ev.status)
          b.pk ev.reason).builds.find?
          (buildKeyMatch ev.url pn ev.build_id branch) =
          some (reasonUpd b.pk ev.reason (statusUpd b.pk ev.status b)) := by
        show (((db'.builds.map (statusUpd b.pk ev.status)).map
          (reasonUpd b.pk ev.reason)).find? _) = _
        rw [find?_map_keyInv (fun x =>
          keyMatch_reasonUpd ev.url pn ev.build_id branch b.pk ev.reason x)]
        rw [find?_map_keyInv (fun x =>
          keyMatch_statusUpd ev.url pn ev.build_id branch b.pk ev.status x),
          hfind1]
        rfl
      have hgc3 : getOrCreateBuild (setBuildReason
          (setBuildStatus db' b.pk ev.status) b.pk ev.reason) ev.url pn
          ev.build_id branch ev.status bt =
          (setBuildReason (setBuildStatus db' b.pk ev.status) b.pk ev.reason,
           reasonUpd b.pk ev.reason (statusUpd b.pk ev.status b)) := by
        unfold getOrCreateBuild
        rw [hfind3]
      simp only [ingestCoreDb, hgc, h1', Bool.false_eq_true, if_false, h2,
        if_true, hgc3, reasonUpd_pk, statusUpd_pk]
      exact setReasonStatus_idem db' b.pk ev.status ev.reason
    · have h2' : pyIn "generate-static-deltas" ev.trigger_name = false :=
        Bool.eq_false_iff.2 h2
      simp only [ingestCoreDb, hgc, h1', h2', Bool.false_eq_true, if_false,
        hgc2, statusUpd_pk]
      exact setStatus_idem db' b.pk ev.status

theorem find?_none_of_count_zero (db : Db) (url pn : String) (bid : Nat)
    (tag : Option String)
    (h : naturalKeyCount db url pn bid = 0) :
    db.builds.find? (buildKeyMatch url pn bid tag) = none := by
  cases hf : db.builds.find? (buildKeyMatch url pn bid tag) with
  | none => rfl
  | some b =>
    exfalso
    have hmem : b ∈ db.builds := List.mem_of_find?_eq_some hf
    have hp : buildKeyMatch url pn bid tag b = true := List.find?_some hf
    have hnk : naturalKey url pn bid b = true := by
      simp only [buildKeyMatch, Bool.and_eq_true] at hp
      simp only [naturalKey, Bool.and_eq_true]
      exact ⟨⟨hp.1.1.1, hp.1.1.2⟩, hp.1.2⟩
    have hmf : b ∈ db.builds.filter (naturalKey url pn bid) :=
      List.mem_filter.2 ⟨hmem, hnk⟩
    have hnil : db.builds.filter (naturalKey url pn bid) = [] :=
      List.length_eq_zero.1 h
    rw [hnil] at hmf
    cases hmf

theorem count_setStatus (d : Db) (pk : Nat) (s : String) (url pn : String)
    (bid : Nat) :
    naturalKeyCount (setBuildStatus d pk s) url pn bid =
      naturalKeyCount d url pn bid :=
  filter_map_keyInv (fun b => naturalKey_statusUpd url pn bid pk s b) d.builds

theorem count_setReason (d : Db) (pk : Nat) (r : Option String)
    (url pn : String) (bid : Nat) :
    naturalKeyCount (setBuildReason d pk r) url pn bid =
      naturalKeyCount d url pn bid :=
  filter_map_keyInv (fun b => naturalKey_reasonUpd url pn bid pk r b) d.builds

theorem count_core (db : Db) (ev : JobservEvent) (pn : String)
    (branch : Option String) (bt : BuildType)
    (hfresh : naturalKeyCount db ev.url pn ev.build_id = 0) :
    naturalKeyCount (ingestCoreDb db ev pn branch bt) ev.url pn
      ev.build_id = 1 := by
  have hfnone := find?_none_of_count_zero db ev.url pn ev.build_id branch
    hfresh
  have hgc : getOrCreateBuild db ev.url pn ev.build_id branch ev.status bt =
      ({ nextPk := db.nextPk + 1, builds := db.builds ++
          [{ pk := db.nextPk, url := ev.url, project := pn,
             build_id := ev.build_id, tag := branch,
             build_status := ev.status, build_type := bt, reason := none }] },
       { pk := db.nextPk, url := ev.url, project := pn,
         build_id := ev.build_id, tag := branch, build_status := ev.status,
         build_type := bt, reason := none }) := by
    unfold getOrCreateBuild
    rw [hfnone]
  have happ : naturalKeyCount
      { nextPk := db.nextPk + 1, builds := db.builds ++
          [{ pk := db.nextPk, url := ev.url, project := pn,
             build_id := ev.build_id, tag := branch,
             build_status := ev.status, build_type := bt,
             reason := none }] } ev.url pn ev.build_id = 1 := by
    unfold naturalKeyCount at hfresh ⊢
    rw [List.filter_append, List.length_append, hfresh]
    simp [naturalKey]
  simp only [ingestCoreDb, hgc]
  split
  · rw [count_setStatus]
    exact happ
  · split
    · rw [count_setReason, count_setStatus]
      exact happ
    · rw [count_setStatus]
      exact happ

/-- C1: delivering the same jobserv CI event twice through
`process_jobserv_webhook` never creates a second Build: re-processing an
already-processed event leaves the Build table exactly as it was
(unconditionally), and for a classified event over a fresh database state,
processing it twice leaves exactly one Build row matching the natural key
`(project, build_id, url)` — the second delivery finds the existing row via
get-or-create. -/
theorem C1_ingest_idempotent :
    (∀ (env : IngestEnv) (db : Db) (ev : JobservEvent),
      (process_jobserv_webhook env
        (process_jobserv_webhook env db ev).db ev).db =
      (process_jobserv_webhook env db ev).db) ∧
    (∀ (env : IngestEnv) (db : Db) (ev : JobservEvent) (pn : String)
        (proj : ProjectCfg) (bt : BuildType) (branch : Option String),
      (ev.build_id == 0) = false → (ev.url == "") = false →
      (pySplit ev.url '/')[4]? = some pn →
      env.projects.find? (fun p => p.name == pn) = some proj →
      classifyTrigger ev.trigger_name = some bt →
      computeBuildBranch ev.trigger_name = Except.ok branch →
      naturalKeyCount db ev.url pn ev.build_id = 0 →
      naturalKeyCount (process_jobserv_webhook env
          (process_jobserv_webhook env db ev).db ev).db ev.url pn
        ev.build_id = 1) := by
  constructor
  · intro env db ev
    cases hbid : (ev.build_id == 0) with
    | true => simp [process_jobserv_webhook, hbid]
    | false =>
      cases hurl : (ev.url == "") with
      | true => simp [process_jobserv_webhook, hbid, hurl]
      | false =>
        cases hsplit : (pySplit ev.url '/')[4]? with
        | none => simp [process_jobserv_webhook, hbid, hurl, hsplit]
        | some pn =>
          cases hfind : env.projects.find? (fun p => p.name == pn) with
          | none => simp [process_jobserv_webhook, hbid, hurl, hsplit, hfind]
          | some proj =>
            cases hclass : classifyTrigger ev.trigger_name with
            | none =>
              simp [process_jobserv_webhook, hbid, hurl, hsplit, hfind,
                hclass]
            | some bt =>
              cases hbr : computeBuildBranch ev.trigger_name with
              | error e =>
                simp [process_jobserv_webhook, hbid, hurl, hsplit, hfind,
                  hclass, hbr]
              | ok branch =>
                rw [process_db_eq_core env db ev pn proj bt branch hbid hurl
                  hsplit hfind hclass hbr]
                rw [process_db_eq_core env _ ev pn proj bt branch hbid hurl
                  hsplit hfind hclass hbr]
                exact ingestCoreDb_idem db ev pn branch bt
  · intro env db ev pn proj bt branch hbid hurl hsplit hfind hclass hbr
      hfresh
    rw [process_db_eq_core env db ev pn proj bt branch hbid hurl hsplit
      hfind hclass hbr]
    rw [process_db_eq_core env _ ev pn proj bt branch hbid hurl hsplit
      hfind hclass hbr]
    rw [ingestCoreDb_idem db ev pn branch bt]
    exact count_core db ev pn branch bt hfresh

theorem C1_ingest_idempotent_witness :
    ((ingestEvW.build_id == 0) = false) ∧
    ((ingestEvW.url == "") = false) ∧
    ((pySplit ingestEvW.url '/')[4]? = some "p1") ∧
    (ingestEnvW.projects.find? (fun p => p.name == "p1") =
      some { name := "p1", default_branch := "main" }) ∧
    (classifyTrigger ingestEvW.trigger_name = some BuildType.REGULAR) ∧
    (computeBuildBranch ingestEvW.trigger_name =
      Except.ok (some "main")) ∧
    (naturalKeyCount dbEmpty ingestEvW.url "p1" ingestEvW.build_id = 0) ∧
    (naturalKeyCount (process_jobserv_webhook ingestEnvW
        (process_jobserv_webhook ingestEnvW dbEmpty ingestEvW).db
        ingestEvW).db ingestEvW.url "p1" ingestEvW.build_id = 1) :=
  ⟨by decide, by decide, by decide, by decide, by decide, by rfl,
   by decide,
   C1_ingest_idempotent.2 ingestEnvW dbEmpty ingestEvW "p1"
     { name := "p1", default_branch := "main" } BuildType.REGULAR
     (some "main") (by decide) (by decide) (by decide) (by decide)
     (by decide) (by rfl) (by decide)⟩

/-! ### C2: the two-build tag window -/

/-- A project build row for the C2 counterexample. -/
def c2build (pk bid : Nat) (tg : Bool) : TagBuild :=
  { pk := pk, build_id := bid, tag := some "master",
    build_type := BuildType.REGULAR, build_reason := some "commit message",
    skip_qa := false, tagged := tg }

/-- Counterexample project: builds 6 and 7 already carry the tag and a
callback for the older build 5 arrives late (e.g. after a restart). -/
def c2proj : TagProject :=
  { apply_testing_tag_on_callback := true, testing_tag := some "promoted",
    apply_tag_to_first_build_only := false,
    builds := [c2build 1 5 false, c2build 2 6 true, c2build 3 7 true] }

/-- C2 counterexample: `tag_build_runs` does not keep the window at two on
every input — tagging build 5 while builds 6 and 7 are tagged finds no
adjacent predecessor below 5, untags nothing, and tags build 5, leaving
THREE tagged builds. -/
theorem C2_counterexample :
    taggedCount c2proj ≤ 2 ∧ 2 < taggedCount (tag_build_runs c2proj 1) := by
  decide

theorem countP_or_le (l : List TagBuild) (p q : TagBuild → Bool) :
    l.countP (fun b => p b || q b) ≤ l.countP p + l.countP q := by
  induction l with
  | nil => simp
  | cons x t ih =>
    simp only [List.countP_cons]
    cases hp : p x <;> cases hq : q x <;> simp [hp, hq] <;> omega

theorem countP_congr' (l : List TagBuild) (p q : TagBuild → Bool)
    (h : ∀ b ∈ l, p b = q b) : l.countP p = l.countP q := by
  induction l with
  | nil => rfl
  | cons x t ih =>
    simp only [List.countP_cons]
    rw [h x (by simp), ih (fun b hb => h b (by simp [hb]))]

theorem countP_key_le_one (l : List TagBuild) (key : TagBuild → Nat)
    (v : Nat) (h : (l.map key).Pairwise (· ≠ ·)) :
    l.countP (fun b => key b == v) ≤ 1 := by
  induction l with
  | nil => simp
  | cons x t ih =>
    rw [List.map_cons, List.pairwise_cons] at h
    rw [List.countP_cons]
    by_cases hx : (key x == v) = true
    · have hzero : t.countP (fun b => key b == v) = 0 := by
        rw [List.countP_eq_zero]
        intro b hb
        have hne := h.1 (key b) (List.mem_map_of_mem key hb)
        simp only [beq_iff_eq] at hx ⊢
        intro hbv
        exact hne (by rw [hx, hbv])
      rw [hzero, hx]
      simp
    · have hx' : (key x == v) = false := Bool.eq_false_iff.2 hx
      rw [hx']
      simpa using ih h.2

theorem maxByBuildId_ne_none (b : TagBuild) (t : List TagBuild) :
    maxByBuildId (b :: t) ≠ none := by
  cases h : maxByBuildId t <;> simp [maxByBuildId, h] <;> split <;> simp

theorem maxByBuildId_is_max (l : List TagBuild) (m : TagBuild)
    (h : maxByBuildId l = some m) : ∀ b ∈ l, b.build_id ≤ m.build_id := by
  induction l generalizing m with
  | nil => cases h
  | cons x t ih =>
    intro b hb
    cases ht : maxByBuildId t with
    | none =>
      have : t = [] := by
        cases t with
        | nil => rfl
        | cons y u => exact absurd ht (maxByBuildId_ne_none y u)
      subst this
      simp only [maxByBuildId, ht] at h
      cases h
      simp only [List.mem_singleton] at hb
      subst hb
      exact Nat.le_refl _
    | some mmax =>
      simp only [maxByBuildId, ht] at h
      by_cases hlt : x.build_id < mmax.build_id
      · rw [if_pos hlt] at h
        cases h
        rcases List.mem_cons.1 hb with hb | hb
        · subst hb
          exact Nat.le_of_lt hlt
        · exact ih _ ht b hb
      · rw [if_neg hlt] at h
        cases h
        rcases List.mem_cons.1 hb with hb | hb
        · subst hb
          exact Nat.le_refl _
        · exact Nat.le_trans (ih _ ht b hb) (Nat.le_of_not_lt hlt)

/-- All four `BUILD_TYPE` choices are in the list `tag_build_runs` queries
with. -/
theorem all4_contains (bt : BuildType) :
    ([BuildType.REGULAR, BuildType.OTA, BuildType.STATIC_DELTA,
      BuildType.CONTAINERS].contains bt) = true := by
  cases bt <;> rfl

/-- C2 (amended): the two-build window is kept only for in-order tagging
within one branch lineage: provided every currently tagged build lies in the
same branch (same `tag` value) as the newly tagged build and has a strictly
lower `build_id` (CI callbacks arriving in build-id order), and build ids
and primary keys are pairwise distinct, then with at most two builds tagged
beforehand, at most two builds carry the tag at every observable point of
`tag_build_runs` — both between the untag and tag steps and after the tag
step. Out-of-order or cross-branch tagging violates the bound (see the
counterexample). -/
theorem C2_tag_window_amended (p : TagProject) (build_pk : Nat)
    (build : TagBuild)
    (hfind : p.builds.find? (fun b => b.pk == build_pk) = some build)
    (hcnt : taggedCount p ≤ 2)
    (horder : ∀ b ∈ p.builds, b.tagged = true → b.build_id < build.build_id)
    (hbranch : ∀ b ∈ p.builds, b.tagged = true → b.tag = build.tag)
    (hbids : (p.builds.map TagBuild.build_id).Pairwise (· ≠ ·))
    (hpks : (p.builds.map TagBuild.pk).Pairwise (· ≠ ·)) :
    taggedCount (tag_build_runs_mid p build_pk) ≤ 2 ∧
    taggedCount (tag_build_runs p build_pk) ≤ 2 := by
  have hcountP : ∀ q : TagProject,
      taggedCount q = q.builds.countP (fun b => b.tagged) := by
    intro q
    rw [taggedCount]
    exact (List.countP_eq_length_filter _ _).symm
  have hcnt2 : p.builds.countP (fun b => b.tagged) ≤ 2 := by
    rw [← hcountP]
    exact hcnt
  by_cases hg : tagBuildRunsGuardsPass p build = true
  case neg =>
    have hg' : tagBuildRunsGuardsPass p build = false :=
      Bool.eq_false_iff.2 hg
    simp only [tag_build_runs, tag_build_runs_mid, hfind, hg',
      Bool.false_eq_true, if_false]
    exact ⟨hcnt, hcnt⟩
  case pos =>
  simp only [tag_build_runs, tag_build_runs_mid, hfind, hg, if_true]
  cases hprev : _retrieve_previous_build p.builds build
      [BuildType.REGULAR, BuildType.OTA, BuildType.STATIC_DELTA,
       BuildType.CONTAINERS] with
  | none =>
    have hnotag : ∀ b ∈ p.builds, b.tagged = false := by
      intro b hb
      cases hbt : b.tagged with
      | false => rfl
      | true =>
        exfalso
        have hcand : b ∈ p.builds.filter (fun x =>
            decide (x.build_id < build.build_id) && (x.tag == build.tag) &&
            ([BuildType.REGULAR, BuildType.OTA, BuildType.STATIC_DELTA,
              BuildType.CONTAINERS].contains x.build_type)) := by
          refine List.mem_filter.2 ⟨hb, ?_⟩
          have h1 := horder b hb hbt
          have h2 := hbranch b hb hbt
          simp [h1, h2]
          cases b.build_type <;> simp
        unfold _retrieve_previous_build at hprev
        rcases hfl : p.builds.filter (fun x =>
            decide (x.build_id < build.build_id) && (x.tag == build.tag) &&
            ([BuildType.REGULAR, BuildType.OTA, BuildType.STATIC_DELTA,
              BuildType.CONTAINERS].contains x.build_type)) with _ | ⟨y, u⟩
        · rw [hfl] at hcand
          cases hcand
        · rw [hfl] at hprev
          exact maxByBuildId_ne_none y u hprev
    simp only [tagBuildRunsUntagPhase, hprev]
    refine ⟨hcnt, ?_⟩
    rw [hcountP]
    show (p.builds.map (fun b =>
        if b.pk == build.pk then { b with tagged := true } else b)).countP
      (fun b => b.tagged) ≤ 2
    rw [List.countP_map]
    have hcg : p.builds.countP ((fun b => b.tagged) ∘ (fun b =>
        if b.pk == build.pk then { b with tagged := true } else b)) =
        p.builds.countP (fun b => b.pk == build.pk) := by
      refine countP_congr' _ _ _ ?_
      intro b hb
      by_cases hpk : (b.pk == build.pk) = true
      · simp [Function.comp, hpk]
      · have hpk' := Bool.eq_false_iff.2 hpk
        simp [Function.comp, hpk', hnotag b hb]
    rw [hcg]
    exact Nat.le_trans (countP_key_le_one p.builds TagBuild.pk build.pk hpks)
      (by omega)
  | some pv =>
    have hmax : ∀ x ∈ p.builds.filter (fun x =>
        decide (x.build_id < build.build_id) && (x.tag == build.tag) &&
        ([BuildType.REGULAR, BuildType.OTA, BuildType.STATIC_DELTA,
          BuildType.CONTAINERS].contains x.build_type)),
        x.build_id ≤ pv.build_id := by
      unfold _retrieve_previous_build at hprev
      exact maxByBuildId_is_max _ pv hprev
    have htag_le : ∀ b ∈ p.builds, b.tagged = true →
        b.build_id ≤ pv.build_id := by
      intro b hb hbt
      refine hmax b (List.mem_filter.2 ⟨hb, ?_⟩)
      have h1 := horder b hb hbt
      have h2 := hbranch b hb hbt
      simp [h1, h2]
      cases b.build_type <;> simp
    simp only [tagBuildRunsUntagPhase, hprev]
    constructor
    · rw [hcountP]
      show (p.builds.map (fun b =>
          if b.tagged && decide (b.build_id < pv.build_id) then
            { b with tagged := false }
          else b)).countP (fun b => b.tagged) ≤ 2
      rw [List.countP_map]
      refine Nat.le_trans (List.countP_mono_left ?_) hcnt2
      intro b _ hb
      simp only [Function.comp] at hb
      by_cases hc : (b.tagged && decide (b.build_id < pv.build_id)) = true
      · rw [if_pos hc] at hb
        cases hb
      · rw [if_neg (by simp [hc])] at hb
        exact hb
    · rw [hcountP]
      show ((p.builds.map (fun b =>
          if b.tagged && decide (b.build_id < pv.build_id) then
            { b with tagged := false }
          else b)).map (fun b =>
          if b.pk == build.pk then { b with tagged := true } else b)).countP
        (fun b => b.tagged) ≤ 2
      rw [List.countP_map, List.countP_map]
      have hcg : p.builds.countP (((fun b => b.tagged) ∘ (fun b =>
          if b.pk == build.pk then { b with tagged := true } else b)) ∘
          (fun b => if b.tagged && decide (b.build_id < pv.build_id) then
            { b with tagged := false } else b)) =
          p.builds.countP (fun b => (b.pk == build.pk) ||
            (b.tagged && !(decide (b.build_id < pv.build_id)))) := by
        refine countP_congr' _ _ _ ?_
        intro b _
        simp only [Function.comp]
        by_cases hc : (b.tagged && decide (b.build_id < pv.build_id)) = true
        · have hctags := (Bool.and_eq_true _ _).mp hc
          by_cases hpk : (b.pk == build.pk) = true
          · simp [hc, hpk, hctags.1, hctags.2]
          · simp [hc, Bool.eq_false_iff.2 hpk, hctags.1, hctags.2]
        · have hc' : (b.tagged && decide (b.build_id < pv.build_id)) =
              false := Bool.eq_false_iff.2 hc
          by_cases hpk : (b.pk == build.pk) = true
          · simp [hc', hpk]
          · have hpk' := Bool.eq_false_iff.2 hpk
            by_cases hbt : b.tagged = true
            · have hlt : decide (b.build_id < pv.build_id) = false := by
                cases hd : decide (b.build_id < pv.build_id)
                · rfl
                · rw [hbt, hd] at hc'
                  cases hc'
              simp [hc', hpk', hbt, hlt]
            · have hbt' := Bool.eq_false_iff.2 hbt
              simp [hc', hpk', hbt']
      rw [hcg]
      refine Nat.le_trans (countP_or_le _ _ _) ?_
      have h1 := countP_key_le_one p.builds TagBuild.pk build.pk hpks
      have h2 : p.builds.countP (fun b => b.tagged &&
          !(decide (b.build_id < pv.build_id))) ≤
          p.builds.countP (fun b => b.build_id == pv.build_id) := by
        refine List.countP_mono_left ?_
        intro b hb hq
        simp only [Bool.and_eq_true, Bool.not_eq_true',
          decide_eq_false_iff_not] at hq
        have hle := htag_le b hb hq.1
        have heq : b.build_id = pv.build_id :=
          Nat.le_antisymm hle (Nat.le_of_not_lt hq.2)
        simp [heq]
      have h3 := countP_key_le_one p.builds TagBuild.build_id pv.build_id
        hbids
      omega

/-- Concrete project for the C2 witness: builds 5 and 6 tagged, the new
build 7 arrives in order on the same branch. -/
def c2projW : TagProject :=
  { apply_testing_tag_on_callback := true, testing_tag := some "promoted",
    apply_tag_to_first_build_only := false,
    builds := [c2build 1 5 true, c2build 2 6 true, c2build 3 7 false] }

theorem C2_tag_window_amended_witness :
    (c2projW.builds.find? (fun b => b.pk == 3) = some (c2build 3 7 false)) ∧
    (taggedCount c2projW ≤ 2) ∧
    (∀ b ∈ c2projW.builds, b.tagged = true →
      b.build_id < (c2build 3 7 false).build_id) ∧
    (∀ b ∈ c2projW.builds, b.tagged = true → b.tag = (c2build 3 7 false).tag) ∧
    ((c2projW.builds.map TagBuild.build_id).Pairwise (· ≠ ·)) ∧
    ((c2projW.builds.map TagBuild.pk).Pairwise (· ≠ ·)) ∧
    (taggedCount (tag_build_runs_mid c2projW 3) ≤ 2 ∧
      taggedCount (tag_build_runs c2projW 3) ≤ 2) :=
  ⟨by decide, by decide, by decide, by decide, by decide, by decide,
   C2_tag_window_amended c2projW 3 (c2build 3 7 false) (by decide)
     (by decide) (by decide) (by decide) (by decide) (by decide)⟩

end Conductor
